import Mathlib

/-!
Shallow embedding of the IBMDevDay2026 demo repository: the client-side
usage/quota tracker, the chat session state held by the `AgentChat`
component, the agent-selection handler of the `Dashboard` component
(all from `src/frontend/src/App.js`), and the Express proxy endpoints
`POST /api/watsonx/chat` and `POST /api/watsonx/validate`
(from the backend server file).

Browser `localStorage` under the key `agentUsage` is modelled as an
`Option UsageRecord` (`none` when nothing is stored). The current UTC
date string produced by `getTodayKey()` is passed in explicitly as a
`today : String` parameter. External HTTP calls made by the proxy are
modelled by oracle values describing the outcome of each fetch.
-/

namespace DevDay

/-- The fixed daily quota, `MAX_CALLS_PER_DAY` in App.js. -/
def MAX_CALLS_PER_DAY : Nat := 200

/-- The two statically compiled agent ids (keys of the `AGENTS` object). -/
inductive AgentId where
  | emailRewriter
  | bauEstimate
deriving DecidableEq, Repr

/-- The usage record stored under the `agentUsage` localStorage key:
`{date, emailRewriter, bauEstimate}`. -/
structure UsageRecord where
  date : String
  emailRewriter : Nat
  bauEstimate : Nat
deriving DecidableEq, Repr

/-- Read one agent counter of a usage record (the JS `usage[agentId]`). -/
def UsageRecord.get (u : UsageRecord) : AgentId → Nat
  | .emailRewriter => u.emailRewriter
  | .bauEstimate => u.bauEstimate

/-- Write one agent counter of a usage record (the JS `usage[agentId] = n`). -/
def UsageRecord.set (u : UsageRecord) (a : AgentId) (n : Nat) : UsageRecord :=
  match a with
  | .emailRewriter => { u with emailRewriter := n }
  | .bauEstimate => { u with bauEstimate := n }

/-- The `agentUsage` slot of localStorage: `none` when `getItem` returns null. -/
abbrev Store := Option UsageRecord

/-- `getUsage()` from App.js: read the stored record; if one is stored and its
date equals today, return it; otherwise return a fresh zeroed record for
today. -/
def getUsage (store : Store) (today : String) : UsageRecord :=
  match store with
  | some data =>
    if data.date = today then data
    else { date := today, emailRewriter := 0, bauEstimate := 0 }
  | none => { date := today, emailRewriter := 0, bauEstimate := 0 }

/-- `getUsage()` as a storage transition: the function body contains no
`setItem`, so the storage component is returned unchanged. -/
def getUsageSt (store : Store) (today : String) : UsageRecord × Store :=
  (getUsage store today, store)

/-- `saveUsage(usage)` from App.js: `setItem` of the record. -/
def saveUsage (usage : UsageRecord) : Store := some usage

/-- `incrementUsage(agentId)` from App.js: read current usage, bump the named
agent counter by one, persist via `saveUsage`, and return the updated record.
The result pairs the returned record with the new storage contents. -/
def incrementUsage (store : Store) (today : String) (a : AgentId) :
    UsageRecord × Store :=
  let usage := getUsage store today
  let usage := usage.set a (usage.get a + 1)
  (usage, saveUsage usage)

end DevDay

namespace DevDay

/-- C1: when no record is stored, or the stored record carries a date other
than today, `getUsage()` returns a record with today's date and zero counters
for both agents, and leaves the storage unchanged (no persist of the reset). -/
theorem getUsage_stale_date_resets (store : Store) (today : String)
    (h : ∀ u, store = some u → u.date ≠ today) :
    getUsageSt store today =
      ({ date := today, emailRewriter := 0, bauEstimate := 0 }, store) := by
  cases store with
  | none => rfl
  | some u =>
    have hne : u.date ≠ today := h u rfl
    simp [getUsageSt, getUsage, hne]

/-- Witness for C1 at a concrete stale record. -/
theorem getUsage_stale_date_resets_witness :
    getUsageSt (some { date := "2026-10-10", emailRewriter := 5, bauEstimate := 7 })
        "2026-10-11" =
      ({ date := "2026-10-11", emailRewriter := 0, bauEstimate := 0 },
        some { date := "2026-10-10", emailRewriter := 5, bauEstimate := 7 }) :=
  getUsage_stale_date_resets
    (some { date := "2026-10-10", emailRewriter := 5, bauEstimate := 7 })
    "2026-10-11" (by intro u hu; cases hu; decide)

/-- C2: on a current-day stored record, one `incrementUsage(agentId)` call
returns and persists a record with the named agent counter bumped by exactly
one, the date unchanged and the other agent counter unchanged; calling it
twice bumps the named agent counter by exactly two, again leaving the date
and the other agent counter unchanged. -/
theorem incrementUsage_bumps_by_one (store : Store) (u : UsageRecord)
    (today : String) (a : AgentId)
    (hs : store = some u) (hd : u.date = today) :
    (incrementUsage store today a).1.get a = u.get a + 1 ∧
    (incrementUsage store today a).1.date = u.date ∧
    (∀ b, b ≠ a → (incrementUsage store today a).1.get b = u.get b) ∧
    (incrementUsage store today a).2 = some (incrementUsage store today a).1 ∧
    (incrementUsage (incrementUsage store today a).2 today a).1.get a =
      u.get a + 2 ∧
    (incrementUsage (incrementUsage store today a).2 today a).1.date = u.date ∧
    (∀ b, b ≠ a →
      (incrementUsage (incrementUsage store today a).2 today a).1.get b =
        u.get b) := by
  subst hs
  cases a <;>
    refine ⟨by simp [incrementUsage, getUsage, saveUsage, hd,
        UsageRecord.get, UsageRecord.set], ?_, ?_, ?_, ?_, ?_, ?_⟩ <;>
    first
    | (intro b hb; cases b <;> simp_all [incrementUsage, getUsage, saveUsage,
        UsageRecord.get, UsageRecord.set])
    | simp [incrementUsage, getUsage, saveUsage, hd,
        UsageRecord.get, UsageRecord.set]

/-- Witness for C2 at a concrete current-day record. -/
theorem incrementUsage_bumps_by_one_witness :
    (incrementUsage (some { date := "2026-10-11", emailRewriter := 3, bauEstimate := 9 })
        "2026-10-11" AgentId.emailRewriter).1.get AgentId.emailRewriter = 4 ∧
    (incrementUsage
        (incrementUsage
          (some { date := "2026-10-11", emailRewriter := 3, bauEstimate := 9 })
          "2026-10-11" AgentId.emailRewriter).2
        "2026-10-11" AgentId.emailRewriter).1.get AgentId.emailRewriter = 5 := by
  have h := incrementUsage_bumps_by_one
    (some { date := "2026-10-11", emailRewriter := 3, bauEstimate := 9 })
    { date := "2026-10-11", emailRewriter := 3, bauEstimate := 9 }
    "2026-10-11" AgentId.emailRewriter rfl rfl
  exact ⟨h.1, h.2.2.2.2.1⟩

end DevDay

namespace DevDay

/-! ### Backend proxy (`server.js`): `/api/watsonx/chat` and `/api/watsonx/validate` -/

/-- One `{role, content}` chat turn. -/
structure Message where
  role : String
  content : String
deriving DecidableEq, Repr

/-- Outcome of the form-encoded fetch to the IAM token endpoint made by
`getIAMToken(apiKey)`: a 2xx response carrying `access_token`, a non-ok
response whose text body is read, or a thrown network-level error. -/
inductive IamOut where
  | ok (access_token : String)
  | httpErr (text : String)
  | thrown (msg : String)
deriving DecidableEq, Repr

/-- `getIAMToken(apiKey)` from server.js: on a non-ok response it throws
`IAM token error: <upstream text>`; a network failure propagates as thrown;
otherwise it returns the token. Thrown errors are modelled as `Except.error`
carrying the error message. -/
def getIAMToken : IamOut → Except String String
  | .thrown m => .error m
  | .httpErr t => .error ("IAM token error: " ++ t)
  | .ok tok => .ok tok

/-- JSON error body shape of a non-ok WatsonX response, as probed by the
handler: `error.error?.message` and `error.message`. -/
structure WxErrBody where
  errErrMessage : Option String
  message : Option String
deriving DecidableEq, Repr

/-- Token-usage metadata `data.usage` of a successful completion, relayed
unchanged by the proxy. -/
structure Usage where
  prompt_tokens : Nat
  completion_tokens : Nat
  total_tokens : Nat
deriving DecidableEq, Repr

/-- One element of `data.choices`. -/
structure Choice where
  message : Message
deriving DecidableEq, Repr

/-- JSON body of a successful WatsonX completion response. -/
structure WxOkBody where
  choices : List Choice
  usage : Usage
deriving DecidableEq, Repr

/-- Outcome of the fetch to the WatsonX chat endpoint. -/
inductive WxOut where
  | ok (body : WxOkBody)
  | httpErr (status : Nat) (body : WxErrBody)
  | thrown (msg : String)
deriving DecidableEq, Repr

/-- The two external calls a `/chat` request may make, as oracles. -/
structure World where
  iam : IamOut
  chat : WxOut
deriving DecidableEq, Repr

/-- The `messages` field of the request body as the handler inspects it with
`!messages || Array.isArray(messages)`: absent (`none`), present but not an
array, or an array of turns. -/
inductive MessagesField where
  | arr (msgs : List Message)
  | notArray
deriving DecidableEq, Repr

/-- Body of a `POST /api/watsonx/chat` request. -/
structure ChatReq where
  apiKey : Option String
  messages : Option MessagesField
  systemPrompt : Option String
deriving DecidableEq, Repr

/-- JSON body the chat handler responds with: either `{error: msg}` or the
success shape `{content, usage}` - and nothing else. -/
inductive RespBody where
  | err (msg : String)
  | okBody (content : String) (usage : Usage)
deriving DecidableEq, Repr

/-- Result of one `/chat` request: HTTP status, JSON body, and whether each
of the two outbound endpoints was invoked. -/
structure ChatResult where
  status : Nat
  body : RespBody
  iamCalled : Bool
  wxCalled : Bool
deriving DecidableEq, Repr

/-- JS `a || b` on two possibly-absent strings (empty string is falsy). -/
def jsOrStr : Option String → Option String → Option String
  | some s, b => if s = "" then b else some s
  | none, b => b

/-- The error message the handler relays for a non-ok WatsonX response:
`error.error?.message || error.message || 'WatsonX API call failed'`. -/
def wxErrMsg (eb : WxErrBody) : String :=
  match jsOrStr (jsOrStr eb.errErrMessage eb.message)
      (some "WatsonX API call failed") with
  | some s => s
  | none => "WatsonX API call failed"

/-- The `POST /api/watsonx/chat` handler from server.js. Guard order follows
the source: falsy `apiKey` gives 400, then a missing or non-array `messages`
gives 400, both before any outbound call; then the IAM exchange runs, a
thrown error being caught into a 500 whose body is the error message; then
the WatsonX call runs: a thrown error is caught into a 500, a non-ok
response is relayed with its status and extracted message, and a 2xx
response yields `{content: data.choices[0].message.content, usage}`.
Reading `choices[0].message` of an empty `choices` throws a TypeError,
which the catch turns into a 500. -/
def chatHandler (req : ChatReq) (w : World) : ChatResult :=
  match req.apiKey with
  | none => ⟨400, .err "API key is required", false, false⟩
  | some k =>
    if k = "" then ⟨400, .err "API key is required", false, false⟩
    else
      match req.messages with
      | none => ⟨400, .err "Messages array is required", false, false⟩
      | some .notArray => ⟨400, .err "Messages array is required", false, false⟩
      | some (.arr _msgs) =>
        match getIAMToken w.iam with
        | .error e => ⟨500, .err e, true, false⟩
        | .ok _tok =>
          match w.chat with
          | .thrown m => ⟨500, .err m, true, true⟩
          | .httpErr st eb => ⟨st, .err (wxErrMsg eb), true, true⟩
          | .ok b =>
            match b.choices with
            | [] => ⟨500,
                .err "Cannot read properties of undefined (reading 'message')",
                true, true⟩
            | c :: _ => ⟨200, .okBody c.message.content b.usage, true, true⟩

/-- Body of a `POST /api/watsonx/validate` response together with whether the
IAM endpoint was invoked. -/
structure ValidateResult where
  status : Nat
  valid : Bool
  error : Option String
  iamCalled : Bool
deriving DecidableEq, Repr

/-- The `POST /api/watsonx/validate` handler from server.js: a falsy apiKey
gives 400 `{valid:false, error:'API key is required'}` without calling out;
otherwise the key is exchanged, success giving `{valid:true}` and any thrown
error being caught into 401 `{valid:false, error:'Invalid API key'}` with a
fixed message that does not depend on the thrown error. -/
def validateHandler (apiKey : Option String) (iam : IamOut) : ValidateResult :=
  match apiKey with
  | none => ⟨400, false, some "API key is required", false⟩
  | some k =>
    if k = "" then ⟨400, false, some "API key is required", false⟩
    else
      match getIAMToken iam with
      | .ok _ => ⟨200, true, none, true⟩
      | .error _ => ⟨401, false, some "Invalid API key", true⟩

end DevDay

namespace DevDay

/-- C3: a `/chat` request with a falsy apiKey, or with a missing or non-array
messages field, gets a 400 response and triggers neither the token-exchange
call nor the chat-completion call. -/
theorem chat_malformed_gives_400_no_calls (req : ChatReq) (w : World)
    (h : req.apiKey = none ∨ req.messages = none ∨
      req.messages = some MessagesField.notArray) :
    (chatHandler req w).status = 400 ∧
    (chatHandler req w).iamCalled = false ∧
    (chatHandler req w).wxCalled = false := by
  obtain ⟨ak, ms, sp⟩ := req
  rcases h with h | h | h <;> simp only at h
  · subst h; simp [chatHandler]
  · subst h
    cases ak with
    | none => simp [chatHandler]
    | some k => by_cases hk : k = "" <;> simp [chatHandler, hk]
  · subst h
    cases ak with
    | none => simp [chatHandler]
    | some k => by_cases hk : k = "" <;> simp [chatHandler, hk]

/-- Witness for C3 at a concrete request lacking an apiKey, against a world
whose upstreams would answer. -/
theorem chat_malformed_gives_400_no_calls_witness :
    (chatHandler ⟨none, some (MessagesField.arr []), none⟩
        ⟨IamOut.ok "tok", WxOut.thrown "boom"⟩).status = 400 ∧
    (chatHandler ⟨none, some (MessagesField.arr []), none⟩
        ⟨IamOut.ok "tok", WxOut.thrown "boom"⟩).iamCalled = false ∧
    (chatHandler ⟨none, some (MessagesField.arr []), none⟩
        ⟨IamOut.ok "tok", WxOut.thrown "boom"⟩).wxCalled = false :=
  chat_malformed_gives_400_no_calls _ _ (Or.inl rfl)

/-- C4 counterexample: on a well-formed request whose token exchange is
rejected upstream with the text `bad key`, the handler's 500 body is
`IAM token error: bad key` - the upstream error text verbatim inside the
body, not the generic `WatsonX API call failed` message. -/
theorem chat_500_body_carries_upstream_detail :
    chatHandler ⟨some "k", some (MessagesField.arr []), none⟩
        ⟨IamOut.httpErr "bad key", WxOut.thrown "boom"⟩ =
      ⟨500, RespBody.err ("IAM token error: " ++ "bad key"), true, false⟩ ∧
    ("IAM token error: " ++ "bad key") ≠ "WatsonX API call failed" := by
  exact ⟨rfl, by decide⟩

/-- C4 as amended: any exception during the external calls is caught and
turned into an HTTP 500 whose body carries the exception's own message
(for a failed token exchange, `IAM token error: ` followed by the upstream's
raw error text), with no retry: after a failed token exchange the chat
endpoint is never invoked, and a thrown chat call is not re-attempted. -/
theorem chat_exception_gives_500_with_message (req : ChatReq) (w : World)
    (k : String) (msgs : List Message)
    (hk : req.apiKey = some k) (hk2 : k ≠ "")
    (hm : req.messages = some (MessagesField.arr msgs)) :
    (∀ e, getIAMToken w.iam = Except.error e →
      chatHandler req w = ⟨500, RespBody.err e, true, false⟩) ∧
    (∀ t m, w.iam = IamOut.ok t → w.chat = WxOut.thrown m →
      chatHandler req w = ⟨500, RespBody.err m, true, true⟩) := by
  obtain ⟨ak, ms, sp⟩ := req
  simp only at hk hm
  subst hk; subst hm
  constructor
  · intro e he
    simp [chatHandler, hk2, he]
  · intro t m ht hm2
    simp [chatHandler, hk2, ht, hm2, getIAMToken]

/-- Witness for the amended C4 at a concrete rejected token exchange. -/
theorem chat_exception_gives_500_with_message_witness :
    chatHandler ⟨some "k", some (MessagesField.arr []), none⟩
        ⟨IamOut.httpErr "bad", WxOut.thrown "boom"⟩ =
      ⟨500, RespBody.err ("IAM token error: " ++ "bad"), true, false⟩ :=
  (chat_exception_gives_500_with_message _ _ "k" [] rfl (by decide) rfl).1
    ("IAM token error: " ++ "bad") rfl

/-- C5: on a well-formed request whose token exchange succeeds and whose
chat-completion call answers 2xx, the handler returns status 200 with a body
holding exactly the content of `choices[0].message` and the upstream usage
metadata, both endpoints having been invoked. -/
theorem chat_success_returns_first_choice (req : ChatReq) (w : World)
    (k tok : String) (msgs : List Message) (c : Choice) (rest : List Choice)
    (u : Usage)
    (hk : req.apiKey = some k) (hk2 : k ≠ "")
    (hm : req.messages = some (MessagesField.arr msgs))
    (hi : w.iam = IamOut.ok tok)
    (hc : w.chat = WxOut.ok ⟨c :: rest, u⟩) :
    chatHandler req w = ⟨200, RespBody.okBody c.message.content u, true, true⟩ := by
  obtain ⟨ak, ms, sp⟩ := req
  obtain ⟨iam, chat⟩ := w
  simp only at hk hm hi hc
  subst hk; subst hm; subst hi; subst hc
  simp [chatHandler, hk2, getIAMToken]

/-- Witness for C5 at a concrete successful exchange. -/
theorem chat_success_returns_first_choice_witness :
    chatHandler
        ⟨some "k", some (MessagesField.arr [⟨"user", "hi"⟩]), some "sys"⟩
        ⟨IamOut.ok "tok",
          WxOut.ok ⟨[⟨⟨"assistant", "hello"⟩⟩, ⟨⟨"assistant", "extra"⟩⟩],
            ⟨3, 4, 7⟩⟩⟩ =
      ⟨200, RespBody.okBody "hello" ⟨3, 4, 7⟩, true, true⟩ :=
  chat_success_returns_first_choice _ _ "k" "tok" [⟨"user", "hi"⟩]
    ⟨⟨"assistant", "hello"⟩⟩ [⟨⟨"assistant", "extra"⟩⟩] ⟨3, 4, 7⟩
    rfl (by decide) rfl rfl rfl

/-- C7: `/validate` answers `{valid: true}` exactly when a truthy apiKey was
supplied and its token exchange succeeded; a rejected or failed exchange is
swallowed into the fixed 401 body `{valid:false, error:'Invalid API key'}`
independent of the thrown error's text, and a missing key gives the fixed
400 body `{valid:false, error:'API key is required'}` without calling out. -/
theorem validate_valid_iff_exchange_succeeds (apiKey : Option String)
    (iam : IamOut) :
    ((validateHandler apiKey iam).valid = true ↔
      (∃ k, apiKey = some k ∧ k ≠ "" ∧ ∃ t, getIAMToken iam = Except.ok t)) ∧
    (∀ k e, apiKey = some k → k ≠ "" → getIAMToken iam = Except.error e →
      validateHandler apiKey iam = ⟨401, false, some "Invalid API key", true⟩) ∧
    (apiKey = none →
      validateHandler apiKey iam =
        ⟨400, false, some "API key is required", false⟩) := by
  refine ⟨?_, ?_, ?_⟩
  · cases apiKey with
    | none => simp [validateHandler]
    | some k =>
      by_cases hk : k = ""
      · subst hk; simp [validateHandler]
      · cases hi : getIAMToken iam with
        | ok t => simp [validateHandler, hk, hi]
        | error e => simp [validateHandler, hk, hi]
  · intro k e hk hk2 he
    subst hk
    simp [validateHandler, hk2, he]
  · intro h
    subst h
    rfl

/-- Witness for C7: a concrete accepted key and a concrete rejected key. -/
theorem validate_valid_iff_exchange_succeeds_witness :
    (validateHandler (some "k") (IamOut.ok "tok")).valid = true ∧
    validateHandler (some "k") (IamOut.httpErr "oops") =
      ⟨401, false, some "Invalid API key", true⟩ :=
  ⟨(validate_valid_iff_exchange_succeeds (some "k") (IamOut.ok "tok")).1.mpr
      ⟨"k", rfl, by decide, "tok", rfl⟩,
    (validate_valid_iff_exchange_succeeds (some "k")
        (IamOut.httpErr "oops")).2.1 "k" ("IAM token error: " ++ "oops")
      rfl (by decide) rfl⟩

end DevDay

namespace DevDay

/-! ### Client chat session (`AgentChat`, `Dashboard` in App.js).

An `Agent` models one entry of the static `AGENTS` object; the `config`
block of deployment identifiers is read from environment variables and is
never consulted by the session logic, so it is not modelled. The React
state of `AgentChat` (`messages`, `error`, `isLoading` and the
`conversationHistory` ref) is a `ChatState`. -/

/-- One compiled-in agent definition. -/
structure Agent where
  id : AgentId
  name : String
  description : String
  placeholder : String
  systemPrompt : String
deriving DecidableEq, Repr

/-- The React state of one mounted `AgentChat` component. -/
structure ChatState where
  messages : List Message
  error : String
  history : List Message
  isLoading : Bool
deriving DecidableEq, Repr

/-- State of `AgentChat` before its mount effects run. -/
def initialChatState : ChatState := ⟨[], "", [], false⟩

/-- The agent-change effect of `AgentChat`: clear the conversation history
ref, replace the transcript with the single greeting
`Hello! I'm the <name>. <description>. How can I help you today?`, and clear
the error banner. -/
def agentChangeEffect (a : Agent) (s : ChatState) : ChatState :=
  { s with
    history := [],
    messages := [⟨"assistant",
      "Hello! I'm the " ++ a.name ++ ". " ++ a.description ++
        ". How can I help you today?"⟩],
    error := "" }

/-- The history update of a successful live exchange: push the user turn and
the assistant turn, then keep only the last 10 entries when the list exceeds
10 (`conversationHistory.current.slice(-10)`). -/
def updateHistory (hist : List Message) (userMessage resp : String) :
    List Message :=
  let h := hist ++ [⟨"user", userMessage⟩, ⟨"assistant", resp⟩]
  if h.length > 10 then h.drop (h.length - 10) else h

/-- JS `String.prototype.trim`: strip leading and trailing whitespace.
Modelled structurally (drop whitespace from both ends of the character
list) so that it evaluates by kernel reduction. -/
def jsTrim (s : String) : String :=
  String.mk
    (((s.data.dropWhile Char.isWhitespace).reverse.dropWhile
        Char.isWhitespace).reverse)

/-- `userMessage.split(' ').slice(0, 5).join(' ')` from the demo template. -/
def firstFiveWords (s : String) : String :=
  String.intercalate " " ((s.splitOn " ").take 5)

/-- `userMessage.slice(0, 100)` from the demo template. -/
def firstHundredChars (s : String) : String :=
  String.mk (s.data.take 100)

/-- The canned demo-mode reply: the email template for the email rewriter,
the estimation template otherwise, each embedding part of the user text. -/
def demoResponse (a : Agent) (userMessage : String) : String :=
  if a.id = AgentId.emailRewriter then
    "## Suggested Subject\nProfessional Follow-up: " ++
      firstFiveWords userMessage ++
      "...\n\n## Rewritten Email\nDear [Recipient],\n\nI hope this message finds you well. " ++
      userMessage ++
      "\n\nPlease let me know if you have any questions or require further clarification.\n\nBest regards,\n[Your Name]\n\n## Key Changes Made\n- Added professional greeting and closing\n- Improved sentence structure\n- Enhanced clarity and tone\n\n---\n⚠️ *Demo Mode: Enter your WatsonX API Key for real AI responses*"
  else
    "## Task Analysis\nAnalyzing: " ++ firstHundredChars userMessage ++
      "...\n\n## Estimation Breakdown\n| Phase | Effort (Hours) | Notes |\n|-------|----------------|-------|\n| Analysis | 4-8 | Requirements review |\n| Development | 16-24 | Implementation |\n| Testing | 8-12 | Unit + Integration |\n| Documentation | 2-4 | Updates |\n| **Total** | **30-48** | |\n\n## Complexity Assessment\n**Level:** Medium\n**Justification:** Standard enhancement scope\n\n## Assumptions\n- Existing codebase patterns apply\n- No major dependencies\n\n## Risks\n- Scope creep possible\n- Integration complexity\n\n---\n⚠️ *Demo Mode: Enter your WatsonX API Key for real AI responses*"

/-- Outcome of the `callWatsonX` fetch issued by a live-mode submit: the
resolved content string, or a thrown error message. -/
inductive SubmitOutcome where
  | success (resp : String)
  | failure (errMsg : String)
deriving DecidableEq, Repr

/-- Result of one `handleSubmit` run: the final component state, the final
`agentUsage` storage, and whether the chat endpoint was called. -/
structure SubmitResult where
  state : ChatState
  store : Store
  chatCalled : Bool
deriving DecidableEq, Repr

/-- `AgentChat.handleSubmit` from App.js. A blank (trimmed-empty) input or an
in-flight request returns without any effect. Otherwise: the error banner is
cleared, the user turn is appended to the transcript, and
`onIncrement(agent.id)` runs `incrementUsage` - before and regardless of the
network call. With a truthy apiKey the proxy is called: on success the
exchange is pushed onto the history (truncated to 10) and the reply appended
to the transcript; on a thrown error the banner is set and an error bubble
appended, the history untouched. With no apiKey the canned demo reply is
appended and the history is untouched; the loading flag ends false either
way. -/
def handleSubmit (agent : Agent) (apiKey : String) (input : String)
    (s : ChatState) (store : Store) (today : String) (out : SubmitOutcome) :
    SubmitResult :=
  if jsTrim input = "" ∨ s.isLoading then ⟨s, store, false⟩
  else
    let userMessage := jsTrim input
    let s1 : ChatState :=
      { s with
        error := "",
        messages := s.messages ++ [⟨"user", userMessage⟩],
        isLoading := true }
    let store1 := (incrementUsage store today agent.id).2
    if apiKey ≠ "" then
      match out with
      | .success resp =>
        ⟨{ s1 with
            history := updateHistory s1.history userMessage resp,
            messages := s1.messages ++ [⟨"assistant", resp⟩],
            isLoading := false }, store1, true⟩
      | .failure e =>
        ⟨{ s1 with
            error := e,
            messages := s1.messages ++ [⟨"assistant",
              "❌ Error: " ++ e ++
                "\n\nPlease check your API key and try again."⟩],
            isLoading := false }, store1, true⟩
    else
      ⟨{ s1 with
          messages := s1.messages ++
            [⟨"assistant", demoResponse agent userMessage⟩],
          isLoading := false }, store1, false⟩

/-- Result of `Dashboard.handleSelectAgent`: the active agent afterwards,
whether the limit alert fired, and whether a chat request was issued (the
handler body contains no network call, so every branch records none). -/
structure SelectResult where
  activeAgent : Option AgentId
  alerted : Bool
  chatCalled : Bool
deriving DecidableEq, Repr

/-- `Dashboard.handleSelectAgent` from App.js: re-selecting the active agent
returns immediately; otherwise, when today's counter for the agent has
reached `MAX_CALLS_PER_DAY` an alert fires and the active agent is kept;
otherwise the agent becomes active. -/
def handleSelectAgent (activeAgent : Option AgentId) (agent : AgentId)
    (store : Store) (today : String) : SelectResult :=
  if activeAgent = some agent then ⟨activeAgent, false, false⟩
  else
    let currentUsage := getUsage store today
    if currentUsage.get agent ≥ MAX_CALLS_PER_DAY then ⟨activeAgent, true, false⟩
    else ⟨some agent, false, false⟩

/-- One user-visible event of a chat session: a submit (with the outcome the
network would deliver) or an agent switch. -/
inductive ChatEvent where
  | submit (agent : Agent) (apiKey : String) (input : String)
      (out : SubmitOutcome)
  | switchAgent (a : Agent)

/-- One step of the chat session on component state and usage storage. -/
def chatStep (today : String) :
    ChatState × Store → ChatEvent → ChatState × Store
  | (s, store), .submit agent apiKey input out =>
    let r := handleSubmit agent apiKey input s store today out
    (r.state, r.store)
  | (s, store), .switchAgent a => (agentChangeEffect a s, store)

/-- A chat session: the event list folded from the freshly mounted state. -/
def chatRun (today : String) (store : Store) (es : List ChatEvent) :
    ChatState × Store :=
  es.foldl (chatStep today) (initialChatState, store)

end DevDay

namespace DevDay

/-- Helper: the live-exchange history update is a suffix of the old history
with the two new turns appended, of length `min (old + 2) 10`. -/
theorem updateHistory_spec (hist : List Message) (u r : String) :
    updateHistory hist u r <:+ hist ++ [⟨"user", u⟩, ⟨"assistant", r⟩] ∧
    (updateHistory hist u r).length = min (hist.length + 2) 10 := by
  unfold updateHistory
  by_cases h : (hist ++ [(⟨"user", u⟩ : Message), ⟨"assistant", r⟩]).length > 10
  · rw [if_pos h]
    refine ⟨List.drop_suffix _ _, ?_⟩
    rw [List.length_drop]
    simp at h ⊢
    omega
  · rw [if_neg h]
    refine ⟨List.suffix_refl _, ?_⟩
    simp at h ⊢
    omega

/-- Helper: a history update never leaves more than 10 entries. -/
theorem updateHistory_length_le (hist : List Message) (u r : String) :
    (updateHistory hist u r).length ≤ 10 := by
  have h := (updateHistory_spec hist u r).2
  omega

/-- Helper: every chat-session step keeps the history within 10 entries. -/
theorem chatStep_history_le (today : String) (ss : ChatState × Store)
    (e : ChatEvent) (h : ss.1.history.length ≤ 10) :
    (chatStep today ss e).1.history.length ≤ 10 := by
  obtain ⟨s, store⟩ := ss
  cases e with
  | switchAgent a => simp [chatStep, agentChangeEffect]
  | submit agent apiKey input out =>
    simp only [chatStep, handleSubmit]
    split
    · exact h
    · split
      · cases out with
        | success resp => simpa using updateHistory_length_le _ _ _
        | failure e2 => simpa using h
      · simpa using h

/-- C8: along any event sequence of a chat session the conversation history
holds at most 10 `{role, content}` turns; a completed live exchange leaves
the history a suffix of the previous history with the user and assistant
turns appended, of length `min (previous + 2) 10` - exactly the most recent
turns, truncated to the last 10; and an agent switch resets it to empty. -/
theorem conversation_history_bounded (today : String) (store : Store)
    (es : List ChatEvent) :
    (chatRun today store es).1.history.length ≤ 10 ∧
    (∀ hist u r,
      updateHistory hist u r <:+ hist ++ [⟨"user", u⟩, ⟨"assistant", r⟩] ∧
      (updateHistory hist u r).length = min (hist.length + 2) 10) ∧
    (∀ a s, (agentChangeEffect a s).history = ([] : List Message)) := by
  refine ⟨?_, fun hist u r => updateHistory_spec hist u r, fun a s => rfl⟩
  have key : ∀ (l : List ChatEvent) (ss : ChatState × Store),
      ss.1.history.length ≤ 10 →
      ((l.foldl (chatStep today) ss).1.history.length ≤ 10) := by
    intro l
    induction l with
    | nil => intro ss h; exact h
    | cons e tl ih =>
      intro ss h
      exact ih _ (chatStep_history_le today ss e h)
  exact key es (initialChatState, store) (by simp [initialChatState])

/-- C9: whatever the prior transcript, error banner and history, the
agent-change effect reinitializes the transcript to exactly the one
assistant greeting naming the new agent and clears the error banner. -/
theorem agent_switch_reinitializes_transcript (a : Agent) (s : ChatState) :
    (agentChangeEffect a s).messages =
      [⟨"assistant", "Hello! I'm the " ++ a.name ++ ". " ++ a.description ++
        ". How can I help you today?"⟩] ∧
    (agentChangeEffect a s).error = "" :=
  ⟨rfl, rfl⟩

/-- C6 counterexample: with the email rewriter already active and its counter
at the 200 limit, a selection attempt for it returns through the re-select
guard: the active agent is kept and no chat request is issued, but no limit
notification fires, against the claim that a notification accompanies every
refusal. -/
theorem select_at_limit_already_active_no_alert :
    handleSelectAgent (some AgentId.emailRewriter) AgentId.emailRewriter
        (some ⟨"2026-10-11", 200, 0⟩) "2026-10-11" =
      ⟨some AgentId.emailRewriter, false, false⟩ := rfl

/-- C6 as amended: when the current-day counter of the selected agent has
reached `MAX_CALLS_PER_DAY`, the selection leaves the active agent unchanged
and issues no chat request, and the limit notification fires exactly when
the selected agent was not already the active one (re-selecting the active
agent is a silent no-op). -/
theorem select_at_limit_refused (activeAgent : Option AgentId) (agent : AgentId)
    (store : Store) (today : String)
    (hlim : (getUsage store today).get agent ≥ MAX_CALLS_PER_DAY) :
    (handleSelectAgent activeAgent agent store today).activeAgent = activeAgent ∧
    (handleSelectAgent activeAgent agent store today).chatCalled = false ∧
    ((handleSelectAgent activeAgent agent store today).alerted = true ↔
      activeAgent ≠ some agent) := by
  by_cases h : activeAgent = some agent
  · subst h; simp [handleSelectAgent]
  · simp [handleSelectAgent, h, hlim]

/-- Witness for the amended C6: no agent active, email rewriter at the limit. -/
theorem select_at_limit_refused_witness :
    (handleSelectAgent none AgentId.emailRewriter
        (some ⟨"2026-10-11", 200, 0⟩) "2026-10-11").activeAgent = none ∧
    (handleSelectAgent none AgentId.emailRewriter
        (some ⟨"2026-10-11", 200, 0⟩) "2026-10-11").chatCalled = false ∧
    ((handleSelectAgent none AgentId.emailRewriter
        (some ⟨"2026-10-11", 200, 0⟩) "2026-10-11").alerted = true ↔
      (none : Option AgentId) ≠ some AgentId.emailRewriter) :=
  select_at_limit_refused none AgentId.emailRewriter
    (some ⟨"2026-10-11", 200, 0⟩) "2026-10-11" (by decide)

/-- Helper: writing a counter and reading the same counter back. -/
theorem UsageRecord.get_set_same (u : UsageRecord) (a : AgentId) (n : Nat) :
    (u.set a n).get a = n := by
  cases a <;> rfl

/-- C10: a non-blank submit while no request is in flight persists the
incremented counter whatever the outcome and mode - live success, live
failure, demo alike - and `incrementUsage` adds one with no cap check, so a
counter already at `MAX_CALLS_PER_DAY` is stored as `MAX_CALLS_PER_DAY + 1`:
the daily limit is never consulted on submit. -/
theorem submit_increments_without_limit_check (agent : Agent) (apiKey : String)
    (input : String) (s : ChatState) (store : Store) (today : String)
    (out : SubmitOutcome)
    (hin : ¬ jsTrim input = "") (hload : s.isLoading = false) :
    (handleSubmit agent apiKey input s store today out).store =
      (incrementUsage store today agent.id).2 ∧
    (∀ n, (getUsage store today).get agent.id = n →
      (incrementUsage store today agent.id).1.get agent.id = n + 1) ∧
    ((getUsage store today).get agent.id = MAX_CALLS_PER_DAY →
      (handleSubmit agent apiKey input s store today out).store =
        some ((getUsage store today).set agent.id (MAX_CALLS_PER_DAY + 1))) := by
  have hstore : (handleSubmit agent apiKey input s store today out).store =
      (incrementUsage store today agent.id).2 := by
    simp only [handleSubmit, hin, hload]
    simp only [or_self, if_false, Bool.false_eq_true, or_false, ite_false]
    split
    · cases out <;> rfl
    · rfl
  refine ⟨hstore, ?_, ?_⟩
  · intro n hn
    simp [incrementUsage, UsageRecord.get_set_same, hn]
  · intro hn
    rw [hstore]
    simp [incrementUsage, saveUsage, hn]

/-- Witness for C10: a demo-mode submit with the counter already at the
limit stores a counter of 201. -/
theorem submit_increments_without_limit_check_witness :
    (handleSubmit
        ⟨AgentId.emailRewriter, "Email Rewriter Agent",
          "Rewrites email body in professional tone and suggests subject line",
          "Enter your email text to rewrite...", "sys"⟩
        "" "hi" initialChatState (some ⟨"2026-10-11", 200, 0⟩) "2026-10-11"
        (SubmitOutcome.success "ok")).store =
      some ((getUsage (some ⟨"2026-10-11", 200, 0⟩) "2026-10-11").set
        AgentId.emailRewriter (MAX_CALLS_PER_DAY + 1)) :=
  (submit_increments_without_limit_check _ _ "hi" initialChatState _ _ _
    (by decide) rfl).2.2 (by decide)

end DevDay
